import Mathlib

/-!
Verification of the dual-mode hybrid attribute machinery of
`lib/sqlalchemy/ext/hybrid.py`.

The module is embedded shallowly: Python values flowing through the hybrid
machinery become an inductive `PyVal`; the `hybrid_property` descriptor
becomes a structure holding its six user callables; its methods (`__get__`,
`__set__`, `__delete__`, `_copy`, the rebinding decorators, `_expr_comparator`
and the name-resolution scan of `_get_comparator`) become Lean functions
translated line by line from the source.  The external collaborators that the
source merely calls into (the ORM proxy from
`attributes.create_proxied_attribute`, a `QueryableAttribute` own bulk-update
translation, the sentinel unknown-attribute key) are not part of the two
source files and are modelled from the spec where noted.
-/

namespace HybridSpec

/-- Python values that flow through the hybrid machinery: plain ints,
column elements of the external expression library (`col`), operator
application nodes (`app`), ORM `QueryableAttribute` objects identified by a
key (`qattr`), objects exposing the clause-extraction capability
`__clause_element__` whose extraction returns the payload (`clauseCapable`),
and literal bound-parameter nodes (`bindparam`, used only by the
spec-modelled adapter). -/
inductive PyVal where
  | int : Int → PyVal
  | col : String → PyVal
  | app : String → List PyVal → PyVal
  | qattr : String → PyVal
  | clauseCapable : PyVal → PyVal
  | bindparam : PyVal → PyVal

/-- An instance object: its attribute dictionary. -/
abbrev Inst := List (String × PyVal)

/-- A class `__dict__` as seen by the name-resolution scan: declared member
names mapped to the object identity (Python `id`) of the stored object. -/
abbrev ClassDict := List (String × Nat)

/-- The part of an owning class the embedded code reads: its `__mro__`,
most-derived first, each ancestor contributing its `__dict__`. -/
structure ClsInfo where
  mro : List ClassDict

/-- The receiver of a Python call that may duck-type between an instance and
a class (the fallback path of `_expr_comparator` calls `fget` with the owning
class where value-mode access calls it with an instance). -/
inductive PyObj where
  | inst : Inst → PyObj
  | cls : ClsInfo → PyObj

/-- A Python function together with its `__name__` (read by
`util.update_wrapper` in `hybrid_property.__init__`). -/
structure PyFunc where
  name : String
  fn : PyObj → PyVal

/-- `hybrid.Comparator`: holds a single `expression`. -/
structure Comparator where
  expression : PyVal

/-- `is_has_clause_element(expr)`: does the value expose the
`__clause_element__` capability. -/
def PyVal.is_has_clause_element : PyVal → Bool
  | .clauseCapable _ => true
  | _ => false

/-- `Comparator.__clause_element__`: if the stored expression exposes the
clause-extraction capability, call it and return its result; otherwise
return the expression unchanged.  The `isinstance(..., ColumnElement)`
assertions in the source are under `TYPE_CHECKING` and do not run. -/
def Comparator.clause_element (c : Comparator) : PyVal :=
  match c.expression with
  | .clauseCapable p => p
  | e => e

/-- `hybrid_property`: the six fields set by `__init__`.  The `__name__`
binding produced by `util.update_wrapper(self, fget)` is the derived
function `hybrid_property.name` below. -/
structure hybrid_property where
  fget : PyFunc
  fset : Option (Inst → PyVal → Inst)
  fdel : Option (Inst → Inst)
  expr : Option (ClsInfo → PyVal)
  custom_comparator : Option (ClsInfo → Comparator)
  update_expr : Option (ClsInfo → PyVal → List (PyVal × PyVal))

/-- `hybrid_property.__init__(fget, fset, fdel, expr, custom_comparator,
update_expr)`: stores the six arguments; `util.update_wrapper(self, fget)`
then copies `fget.__name__` onto the descriptor, captured by
`hybrid_property.name`. -/
def hybrid_property.init (fget : PyFunc) (fset : Option (Inst → PyVal → Inst))
    (fdel : Option (Inst → Inst)) (expr : Option (ClsInfo → PyVal))
    (custom_comparator : Option (ClsInfo → Comparator))
    (update_expr : Option (ClsInfo → PyVal → List (PyVal × PyVal))) :
    hybrid_property :=
  ⟨fget, fset, fdel, expr, custom_comparator, update_expr⟩

/-- The descriptor `__name__` binding: `util.update_wrapper(self, fget)`
assigns `self.__name__ = fget.__name__` on every construction, and nothing
else in the module writes it. -/
def hybrid_property.name (h : hybrid_property) : String := h.fget.name

/-- `hybrid_property._copy(**kw)`: collects the non-underscore entries of
`self.__dict__` (exactly the six `__init__` fields; the dunder attributes
set by `update_wrapper` are filtered out by the `startswith("_")` test),
overrides them with the keyword arguments, and calls `type(self)(**defaults)`.
Each `Option` parameter is a keyword argument that is either supplied or
absent. -/
def hybrid_property._copy (h : hybrid_property) (fgetKw : Option PyFunc)
    (fsetKw : Option (Inst → PyVal → Inst)) (fdelKw : Option (Inst → Inst))
    (exprKw : Option (ClsInfo → PyVal))
    (ccKw : Option (ClsInfo → Comparator))
    (ueKw : Option (ClsInfo → PyVal → List (PyVal × PyVal))) :
    hybrid_property :=
  hybrid_property.init
    (fgetKw.getD h.fget)
    (match fsetKw with | some f => some f | none => h.fset)
    (match fdelKw with | some f => some f | none => h.fdel)
    (match exprKw with | some f => some f | none => h.expr)
    (match ccKw with | some f => some f | none => h.custom_comparator)
    (match ueKw with | some f => some f | none => h.update_expr)

/-- `hybrid_property.getter(fget)`: `self._copy(fget=fget)`. -/
def hybrid_property.getter (h : hybrid_property) (fget : PyFunc) : hybrid_property :=
  h._copy (some fget) none none none none none

/-- `hybrid_property.setter(fset)`: `self._copy(fset=fset)`. -/
def hybrid_property.setter (h : hybrid_property) (fset : Inst → PyVal → Inst) : hybrid_property :=
  h._copy none (some fset) none none none none

/-- `hybrid_property.deleter(fdel)`: `self._copy(fdel=fdel)`. -/
def hybrid_property.deleter (h : hybrid_property) (fdel : Inst → Inst) : hybrid_property :=
  h._copy none none (some fdel) none none none

/-- `hybrid_property.expression(expr)`: `self._copy(expr=expr)`. -/
def hybrid_property.expression (h : hybrid_property) (e : ClsInfo → PyVal) : hybrid_property :=
  h._copy none none none (some e) none none

/-- `hybrid_property.comparator(comparator)`:
`self._copy(custom_comparator=comparator)`. -/
def hybrid_property.comparator (h : hybrid_property) (c : ClsInfo → Comparator) : hybrid_property :=
  h._copy none none none none (some c) none

/-- `hybrid_property.update_expression(meth)`: `self._copy(update_expr=meth)`. -/
def hybrid_property.update_expression (h : hybrid_property)
    (u : ClsInfo → PyVal → List (PyVal × PyVal)) : hybrid_property :=
  h._copy none none none none none (some u)

/-- The `AttributeError`s raised by `__set__` and `__delete__`. -/
inductive PyErr where
  | cantSetAttribute : PyErr
  | cantDeleteAttribute : PyErr
deriving DecidableEq

/-- `hybrid_property.__set__(instance, value)`: raises
`AttributeError("cannot set attribute")` when `fset is None`, otherwise calls
`fset(instance, value)`; the setter mutation is modelled as returning the
updated instance. -/
def hybrid_property.set (h : hybrid_property) (i : Inst) (value : PyVal) :
    Except PyErr Inst :=
  match h.fset with
  | none => .error .cantSetAttribute
  | some f => .ok (f i value)

/-- `hybrid_property.__delete__(instance)`: raises
`AttributeError("cannot delete attribute")` when `fdel is None`, otherwise
calls `fdel(instance)`. -/
def hybrid_property.delete (h : hybrid_property) (i : Inst) : Except PyErr Inst :=
  match h.fdel with
  | none => .error .cantDeleteAttribute
  | some f => .ok (f i)

/-- `ExprComparator.__init__(cls, expression, hybrid)`. -/
structure ExprComparator where
  cls : ClsInfo
  expression : PyVal
  hybrid : hybrid_property

/-- The comparator object handed to the proxy by `expr_comparator`: either
the result of the user custom comparator factory, or the default
`ExprComparator` built by `_get_expr`. -/
inductive CompObj where
  | comp : Comparator → CompObj
  | exprComp : ExprComparator → CompObj

/-- The expression payload carried by a comparator object. -/
def CompObj.exprVal : CompObj → PyVal
  | .comp c => c.expression
  | .exprComp c => c.expression

/-- Modelled from the spec: the proxy produced by the external
`attributes.create_proxied_attribute` service carries the owning class, the
resolved name, a back reference to the descriptor, and the comparator
(spec section 4.1 step 5). -/
structure ProxiedAttr where
  owner : ClsInfo
  name : String
  hybrid : hybrid_property
  comparator : CompObj

/-- Modelled from the spec: the sentinel unknown-attribute key
`attributes._UNKNOWN_ATTR_KEY` of the external attributes module. -/
def UNKNOWN_ATTR_KEY : String := "unknown attribute"

/-- Python dict lookup `d[n]` over a `ClassDict`. -/
def lookupDict : ClassDict → String → Option Nat
  | [], _ => none
  | (k, v) :: rest, n => if k = n then some v else lookupDict rest n

/-- The MRO scan of `_get_comparator.expr_comparator`: walk `owner.__mro__`
most-derived first; at an ancestor whose `__dict__` holds `self.__name__`,
break with that name if the stored entry is identity-equal to the descriptor
(`is self`, compared via the object identity `selfId`), otherwise keep
scanning; if the loop ends without a break, use the sentinel key. -/
def mro_resolve_name (selfName : String) (selfId : Nat) : List ClassDict → String
  | [] => UNKNOWN_ATTR_KEY
  | d :: rest =>
    match lookupDict d selfName with
    | some oid =>
      if oid = selfId then selfName else mro_resolve_name selfName selfId rest
    | none => mro_resolve_name selfName selfId rest

/-- `hybrid_property._get_comparator(comparator)`: returns the closure
`expr_comparator(owner)` that resolves the published name through the MRO
scan and hands `(owner, name, self, comparator(owner))` to the proxy
constructor.  `selfId` is the Python object identity of the descriptor used
by the `is self` test. -/
def hybrid_property._get_comparator (h : hybrid_property) (selfId : Nat)
    (comparator : ClsInfo → CompObj) (owner : ClsInfo) : ProxiedAttr :=
  ⟨owner, mro_resolve_name h.name selfId owner.mro, h, comparator owner⟩

/-- `hybrid_property._get_expr(expr)`: wraps the expression builder in
`_expr(cls) = ExprComparator(cls, expr(cls), self)` and passes it to
`_get_comparator`. -/
def hybrid_property._get_expr (h : hybrid_property) (selfId : Nat)
    (e : ClsInfo → PyVal) (owner : ClsInfo) : ProxiedAttr :=
  h._get_comparator selfId (fun c => .exprComp ⟨c, e c, h⟩) owner

/-- `hybrid_property._expr_comparator`: custom comparator first, then the
expression builder, then the fallback that reuses `fget` called with the
owning class. -/
def hybrid_property._expr_comparator (h : hybrid_property) (selfId : Nat)
    (owner : ClsInfo) : ProxiedAttr :=
  match h.custom_comparator with
  | some cc => h._get_comparator selfId (fun c => .comp (cc c)) owner
  | none =>
    match h.expr with
    | some e => h._get_expr selfId e owner
    | none => h._get_expr selfId (fun c => h.fget.fn (.cls c)) owner

/-- The three possible results of the descriptor protocol `__get__`. -/
inductive GetResult where
  | descriptor : hybrid_property → GetResult
  | exprView : ProxiedAttr → GetResult
  | value : PyVal → GetResult

/-- `hybrid_property.__get__(instance, owner)`: `owner is None` returns the
descriptor itself; `instance is None` returns `self._expr_comparator(owner)`;
otherwise returns `self.fget(instance)`. -/
def hybrid_property.get (h : hybrid_property) (selfId : Nat)
    (oinst : Option Inst) (oowner : Option ClsInfo) : GetResult :=
  match oowner with
  | none => .descriptor h
  | some owner =>
    match oinst with
    | none => .exprView (h._expr_comparator selfId owner)
    | some i => .value (h.fget.fn (.inst i))

/-- `ExprComparator.operate(op, *other)`: `op(self.expression, *other)`;
the external operator receives the full positional argument list. -/
def ExprComparator.operate (c : ExprComparator) (op : List PyVal → PyVal)
    (other : List PyVal) : PyVal :=
  op (c.expression :: other)

/-- `ExprComparator.reverse_operate(op, other)`: `op(other, self.expression)`. -/
def ExprComparator.reverse_operate (c : ExprComparator) (op : List PyVal → PyVal)
    (other : PyVal) : PyVal :=
  op [other, c.expression]

/-- A node-building operator of the external expression library: applying it
constructs a fresh operator-application node over its arguments. -/
def opNode (nm : String) : List PyVal → PyVal := fun args => .app nm args

/-- `isinstance(self.expression, attributes.QueryableAttribute)`. -/
def PyVal.isQAttr : PyVal → Bool
  | .qattr _ => true
  | _ => false

/-- `ExprComparator._bulk_update_tuples(value)`: if the wrapped expression is
a `QueryableAttribute`, delegate to that attribute bulk-update translation
(external to this module, abstracted as the parameter `qb`, keyed by the
attribute identity); else if the hybrid has `update_expr`, return
`update_expr(cls, value)`; else return `[(expression, value)]`. -/
def ExprComparator._bulk_update_tuples (qb : String → PyVal → List (PyVal × PyVal))
    (c : ExprComparator) (value : PyVal) : List (PyVal × PyVal) :=
  match c.expression with
  | .qattr a => qb a value
  | _ =>
    match c.hybrid.update_expr with
    | some ue => ue c.cls value
    | none => [(c.expression, value)]

/-! ## Helper lemmas and concrete fixtures -/

/-- If some ancestor dict maps the declared name to the descriptor identity,
the MRO scan resolves to the declared name. -/
theorem mro_resolve_name_found (n : String) (sid : Nat) (l : List ClassDict)
    (hx : ∃ d ∈ l, lookupDict d n = some sid) : mro_resolve_name n sid l = n := by
  induction l with
  | nil => obtain ⟨d, hd, _⟩ := hx; cases hd
  | cons d rest ih =>
    obtain ⟨d0, hd0, hl0⟩ := hx
    cases hd0 with
    | head =>
      unfold mro_resolve_name
      rw [hl0]
      simp
    | tail _ ht =>
      unfold mro_resolve_name
      cases hcase : lookupDict d n with
      | none => exact ih ⟨d0, ht, hl0⟩
      | some oid =>
        by_cases heq : oid = sid
        · simp [heq]
        · simp [heq]
          exact ih ⟨d0, ht, hl0⟩

/-- If no ancestor dict maps the declared name to the descriptor identity,
the MRO scan falls through to the sentinel key. -/
theorem mro_resolve_name_missing (n : String) (sid : Nat) (l : List ClassDict)
    (hx : ∀ d ∈ l, lookupDict d n ≠ some sid) :
    mro_resolve_name n sid l = UNKNOWN_ATTR_KEY := by
  induction l with
  | nil => rfl
  | cons d rest ih =>
    unfold mro_resolve_name
    cases hcase : lookupDict d n with
    | none => exact ih (fun d0 hd0 => hx d0 (List.mem_cons_of_mem d hd0))
    | some oid =>
      have hne : oid ≠ sid := by
        intro he
        exact hx d (List.mem_cons_self d rest) (he ▸ hcase)
      simp [hne]
      exact ih (fun d0 hd0 => hx d0 (List.mem_cons_of_mem d hd0))

/-- The name published by the expression-mode view is always the result of
the MRO scan, in all three builder branches. -/
theorem expr_comparator_name (h : hybrid_property) (sid : Nat) (owner : ClsInfo) :
    (h._expr_comparator sid owner).name = mro_resolve_name h.name sid owner.mro := by
  unfold hybrid_property._expr_comparator hybrid_property._get_expr
    hybrid_property._get_comparator
  cases h.custom_comparator <;> cases h.expr <;> rfl

/-- An operator-application node is strictly larger than each of its
arguments, hence never equal to one of them. -/
theorem app_ne_mem (nm : String) (l : List PyVal) (e : PyVal) (hmem : e ∈ l) :
    PyVal.app nm l ≠ e := by
  intro heq
  have h1 : sizeOf e < sizeOf l := List.sizeOf_lt_of_mem hmem
  have h2 : sizeOf e = sizeOf (PyVal.app nm l) := by rw [heq]
  have h3 : sizeOf (PyVal.app nm l) = 1 + sizeOf nm + sizeOf l := by simp
  omega

/-- A getter function named `value`. -/
def fixGetterValue : PyFunc :=
  ⟨"value", fun o => match o with | .inst _ => .int 0 | .cls _ => .col "valuecol"⟩

/-- A getter function named `other`. -/
def fixGetterOther : PyFunc :=
  ⟨"other", fun o => match o with | .inst _ => .int 1 | .cls _ => .col "othercol"⟩

/-- A bare hybrid over `fixGetterValue` with nothing else attached. -/
def fixHybridBare : hybrid_property :=
  hybrid_property.init fixGetterValue none none none none none

/-- An expression builder producing a compound column expression. -/
def fixExprBuilder : ClsInfo → PyVal :=
  fun _ => .app "sub" [.col "endcol", .col "startcol"]

/-- A custom comparator factory. -/
def fixCompFactory : ClsInfo → Comparator :=
  fun _ => ⟨.app "lower" [.col "word"]⟩

/-- An update-expression builder. -/
def fixUpdateExpr : ClsInfo → PyVal → List (PyVal × PyVal) :=
  fun _ v => [(.col "endcol", .app "add" [.col "startcol", v])]

/-- A hybrid with an expression builder and an update expression attached. -/
def fixHybridExpr : hybrid_property :=
  hybrid_property.init fixGetterValue none none (some fixExprBuilder) none
    (some fixUpdateExpr)

/-- A hybrid with a custom comparator attached. -/
def fixHybridComp : hybrid_property :=
  hybrid_property.init fixGetterValue none none none (some fixCompFactory) none

/-- An owning class with a single ancestor declaring `value` with identity 3. -/
def fixOwner : ClsInfo := ⟨[[("value", 3)]]⟩

/-- The external bulk-update translation of a `QueryableAttribute`,
abstracted: translate to its own column. -/
def fixQb : String → PyVal → List (PyVal × PyVal) :=
  fun a v => [(.col a, v)]

/-! ## Claims -/

/-- C1: `hybrid_property.__get__` dispatches on the shape of the access:
with no owner it returns the descriptor itself unchanged; on the owning
class with no instance it returns the class-level expression-mode view for
that class; on an instance it returns exactly `fget(instance)`, the raw
getter result, with no expression machinery involved. -/
theorem C1_get_dispatch (h : hybrid_property) (sid : Nat) :
    (∀ oi, h.get sid oi none = .descriptor h) ∧
    (∀ owner, h.get sid none (some owner) = .exprView (h._expr_comparator sid owner)) ∧
    (∀ i owner, h.get sid (some i) (some owner) = .value (h.fget.fn (.inst i))) :=
  ⟨fun _ => rfl, fun _ => rfl, fun _ _ => rfl⟩

/-- C2: the class-level expression view is built with a fixed priority —
the custom comparator when attached, else the expression builder applied to
the owning class, and only when neither is attached the value getter applied
to the owning class; and whenever either is attached, the expression payload
produced is independent of the value getter (it is never invoked with the
class). -/
theorem C2_expr_priority (h : hybrid_property) (sid : Nat) (owner : ClsInfo) :
    (∀ cc, h.custom_comparator = some cc →
      (h._expr_comparator sid owner).comparator = .comp (cc owner)) ∧
    (h.custom_comparator = none → ∀ e, h.expr = some e →
      (h._expr_comparator sid owner).comparator = .exprComp ⟨owner, e owner, h⟩) ∧
    (h.custom_comparator = none → h.expr = none →
      (h._expr_comparator sid owner).comparator =
        .exprComp ⟨owner, h.fget.fn (.cls owner), h⟩) ∧
    (∀ h2 : hybrid_property, h.custom_comparator = h2.custom_comparator →
      h.expr = h2.expr →
      (h.custom_comparator.isSome ∨ h.expr.isSome) →
      CompObj.exprVal (h._expr_comparator sid owner).comparator =
        CompObj.exprVal (h2._expr_comparator sid owner).comparator) := by
  refine ⟨?_, ?_, ?_, ?_⟩
  · intro cc hcc
    unfold hybrid_property._expr_comparator hybrid_property._get_comparator
    rw [hcc]
  · intro hcc e he
    unfold hybrid_property._expr_comparator hybrid_property._get_expr
      hybrid_property._get_comparator
    rw [hcc, he]
  · intro hcc he
    unfold hybrid_property._expr_comparator hybrid_property._get_expr
      hybrid_property._get_comparator
    rw [hcc, he]
  · intro h2 hcc he hsome
    unfold hybrid_property._expr_comparator hybrid_property._get_expr
      hybrid_property._get_comparator
    rw [← hcc, ← he]
    cases hc : h.custom_comparator with
    | some cc => rfl
    | none =>
      cases hx : h.expr with
      | some e => rfl
      | none =>
        rw [hc, hx] at hsome
        simp at hsome

/-- Witness for C2 at concrete inputs: the custom-comparator branch on
`fixHybridComp` and the fallback branch on `fixHybridBare`. -/
theorem C2_expr_priority_witness :
    (fixHybridComp._expr_comparator 3 fixOwner).comparator =
      .comp (fixCompFactory fixOwner) ∧
    (fixHybridBare._expr_comparator 3 fixOwner).comparator =
      .exprComp ⟨fixOwner, fixHybridBare.fget.fn (.cls fixOwner), fixHybridBare⟩ :=
  ⟨(C2_expr_priority fixHybridComp 3 fixOwner).1 fixCompFactory rfl,
   (C2_expr_priority fixHybridBare 3 fixOwner).2.2.1 rfl rfl⟩

/-- C3: `_bulk_update_tuples` resolves in a fixed order — a wrapped
`QueryableAttribute` delegates to that attribute own translation regardless
of any attached `update_expr` (case (a) holds with no condition on
`update_expr`); otherwise an attached `update_expr` is returned verbatim;
otherwise the single pair `(expression, value)` is returned unchanged. -/
theorem C3_bulk_update_order (qb : String → PyVal → List (PyVal × PyVal))
    (c : ExprComparator) (value : PyVal) :
    (∀ a, c.expression = .qattr a →
      ExprComparator._bulk_update_tuples qb c value = qb a value) ∧
    (c.expression.isQAttr = false → ∀ ue, c.hybrid.update_expr = some ue →
      ExprComparator._bulk_update_tuples qb c value = ue c.cls value) ∧
    (c.expression.isQAttr = false → c.hybrid.update_expr = none →
      ExprComparator._bulk_update_tuples qb c value = [(c.expression, value)]) := by
  refine ⟨?_, ?_, ?_⟩
  · intro a ha
    unfold ExprComparator._bulk_update_tuples
    rw [ha]
  · intro hq ue hue
    unfold ExprComparator._bulk_update_tuples
    cases hc : c.expression <;> simp [PyVal.isQAttr, hc] at hq ⊢ <;> rw [hue]
  · intro hq hue
    unfold ExprComparator._bulk_update_tuples
    cases hc : c.expression <;> simp [PyVal.isQAttr, hc] at hq ⊢ <;> rw [hue]

/-- Witness for C3: a hybrid whose wrapped expression is a mapped attribute
delegates to the attribute translation even though `fixUpdateExpr` is
attached; a hybrid wrapping a plain compound expression with `update_expr`
attached uses it. -/
theorem C3_bulk_update_order_witness :
    ExprComparator._bulk_update_tuples fixQb
      ⟨fixOwner, .qattr "acct", fixHybridExpr⟩ (.int 25) = fixQb "acct" (.int 25) ∧
    ExprComparator._bulk_update_tuples fixQb
      ⟨fixOwner, .app "sub" [.col "endcol", .col "startcol"], fixHybridExpr⟩ (.int 25) =
      fixUpdateExpr fixOwner (.int 25) :=
  ⟨(C3_bulk_update_order fixQb ⟨fixOwner, .qattr "acct", fixHybridExpr⟩ (.int 25)).1
      "acct" rfl,
   (C3_bulk_update_order fixQb
      ⟨fixOwner, .app "sub" [.col "endcol", .col "startcol"], fixHybridExpr⟩
      (.int 25)).2.1 rfl fixUpdateExpr rfl⟩

/-- C4: with no custom comparator attached, `operate` applies the operator
directly to the wrapped expression node followed by the operands, and
`reverse_operate` applies it with the operand first and the wrapped node
second; for the node-building operators of the expression library the
result is a fresh node, never the wrapped node itself (and the comparator,
a pure value, is not mutated). -/
theorem C4_operate_default (c : ExprComparator) (op : List PyVal → PyVal)
    (other : List PyVal) (o : PyVal)
    (hcc : c.hybrid.custom_comparator = none) :
    c.operate op other = op (c.expression :: other) ∧
    c.reverse_operate op o = op [o, c.expression] ∧
    (∀ nm, c.operate (opNode nm) other ≠ c.expression ∧
      c.reverse_operate (opNode nm) o ≠ c.expression) := by
  refine ⟨rfl, rfl, fun nm => ⟨?_, ?_⟩⟩
  · exact app_ne_mem nm (c.expression :: other) c.expression (List.mem_cons_self _ _)
  · exact app_ne_mem nm [o, c.expression] c.expression
      (List.mem_cons_of_mem o (List.mem_cons_self _ _))

/-- Witness for C4 on a concrete comparator with no custom comparator:
a `gt` application over the wrapped column and a literal. -/
theorem C4_operate_default_witness :
    ExprComparator.operate ⟨fixOwner, .col "startcol", fixHybridBare⟩
      (opNode "gt") [.int 5] = .app "gt" [.col "startcol", .int 5] ∧
    ExprComparator.reverse_operate ⟨fixOwner, .col "startcol", fixHybridBare⟩
      (opNode "lt") (.int 5) = .app "lt" [.int 5, .col "startcol"] ∧
    ExprComparator.operate ⟨fixOwner, .col "startcol", fixHybridBare⟩
      (opNode "gt") [.int 5] ≠ .col "startcol" :=
  ⟨(C4_operate_default ⟨fixOwner, .col "startcol", fixHybridBare⟩ (opNode "gt")
      [.int 5] (.int 5) rfl).1,
   (C4_operate_default ⟨fixOwner, .col "startcol", fixHybridBare⟩ (opNode "lt")
      [.int 5] (.int 5) rfl).2.1,
   ((C4_operate_default ⟨fixOwner, .col "startcol", fixHybridBare⟩ (opNode "gt")
      [.int 5] (.int 5) rfl).2.2 "gt").1⟩

/-- C5: `__set__` invokes the attached setter and fails if and only if no
setter is attached, and symmetrically for `__delete__`; in the failure case
the error is produced without running any user callable, so the instance is
returned unchanged to the caller (the `Except` carries no new state). -/
theorem C5_set_delete (h : hybrid_property) (i : Inst) (v : PyVal) :
    ((h.set i v).isOk = true ↔ h.fset.isSome = true) ∧
    (∀ f, h.fset = some f → h.set i v = .ok (f i v)) ∧
    (h.fset = none → h.set i v = .error .cantSetAttribute) ∧
    ((h.delete i).isOk = true ↔ h.fdel.isSome = true) ∧
    (∀ f, h.fdel = some f → h.delete i = .ok (f i)) ∧
    (h.fdel = none → h.delete i = .error .cantDeleteAttribute) := by
  refine ⟨?_, ?_, ?_, ?_, ?_, ?_⟩
  · cases hf : h.fset <;> simp [hybrid_property.set, hf, Except.isOk, Except.toBool]
  · intro f hf; simp [hybrid_property.set, hf]
  · intro hf; simp [hybrid_property.set, hf]
  · cases hf : h.fdel <;> simp [hybrid_property.delete, hf, Except.isOk, Except.toBool]
  · intro f hf; simp [hybrid_property.delete, hf]
  · intro hf; simp [hybrid_property.delete, hf]

/-- A setter fixture writing the value under the key `stored`. -/
def fixSetter : Inst → PyVal → Inst := fun i v => ("stored", v) :: i

/-- Witness for C5: the read-only bare hybrid fails both mutations; a
hybrid with `fixSetter` attached applies it. -/
theorem C5_set_delete_witness :
    fixHybridBare.set [] (.int 7) = .error .cantSetAttribute ∧
    fixHybridBare.delete [] = .error .cantDeleteAttribute ∧
    (fixHybridBare.setter fixSetter).set [] (.int 7) = .ok [("stored", .int 7)] :=
  ⟨(C5_set_delete fixHybridBare [] (.int 7)).2.2.1 rfl,
   (C5_set_delete fixHybridBare [] (.int 7)).2.2.2.2.2 rfl,
   (C5_set_delete (fixHybridBare.setter fixSetter) [] (.int 7)).2.1 fixSetter rfl⟩

/-- C6: each of the six rebinding operations returns a new descriptor equal
to the original except for the single replaced field.  The embedding is
purely functional, mirroring `_copy`, which reads the original and builds a
fresh object through `__init__`; the original is never written, so after any
number of derived rebinds it is unchanged and fully usable. -/
theorem C6_rebind_copy (h : hybrid_property) (g : PyFunc)
    (s : Inst → PyVal → Inst) (d : Inst → Inst) (e : ClsInfo → PyVal)
    (c : ClsInfo → Comparator) (u : ClsInfo → PyVal → List (PyVal × PyVal)) :
    ((h.getter g).fget = g ∧ (h.getter g).fset = h.fset ∧
      (h.getter g).fdel = h.fdel ∧ (h.getter g).expr = h.expr ∧
      (h.getter g).custom_comparator = h.custom_comparator ∧
      (h.getter g).update_expr = h.update_expr) ∧
    ((h.setter s).fget = h.fget ∧ (h.setter s).fset = some s ∧
      (h.setter s).fdel = h.fdel ∧ (h.setter s).expr = h.expr ∧
      (h.setter s).custom_comparator = h.custom_comparator ∧
      (h.setter s).update_expr = h.update_expr) ∧
    ((h.deleter d).fget = h.fget ∧ (h.deleter d).fset = h.fset ∧
      (h.deleter d).fdel = some d ∧ (h.deleter d).expr = h.expr ∧
      (h.deleter d).custom_comparator = h.custom_comparator ∧
      (h.deleter d).update_expr = h.update_expr) ∧
    ((h.expression e).fget = h.fget ∧ (h.expression e).fset = h.fset ∧
      (h.expression e).fdel = h.fdel ∧ (h.expression e).expr = some e ∧
      (h.expression e).custom_comparator = h.custom_comparator ∧
      (h.expression e).update_expr = h.update_expr) ∧
    ((h.comparator c).fget = h.fget ∧ (h.comparator c).fset = h.fset ∧
      (h.comparator c).fdel = h.fdel ∧ (h.comparator c).expr = h.expr ∧
      (h.comparator c).custom_comparator = some c ∧
      (h.comparator c).update_expr = h.update_expr) ∧
    ((h.update_expression u).fget = h.fget ∧ (h.update_expression u).fset = h.fset ∧
      (h.update_expression u).fdel = h.fdel ∧ (h.update_expression u).expr = h.expr ∧
      (h.update_expression u).custom_comparator = h.custom_comparator ∧
      (h.update_expression u).update_expr = some u) :=
  ⟨⟨rfl, rfl, rfl, rfl, rfl, rfl⟩, ⟨rfl, rfl, rfl, rfl, rfl, rfl⟩,
   ⟨rfl, rfl, rfl, rfl, rfl, rfl⟩, ⟨rfl, rfl, rfl, rfl, rfl, rfl⟩,
   ⟨rfl, rfl, rfl, rfl, rfl, rfl⟩, ⟨rfl, rfl, rfl, rfl, rfl, rfl⟩⟩

/-- C7 counterexample: rebinding through `getter` with a function named
`other` yields a descriptor whose `__name__` is `other`, not the original
`value` — `_copy` drops the dunder attributes (they start with an
underscore) and `__init__` re-derives `__name__` from the new `fget` via
`update_wrapper`, so the declared name binding is not preserved by every
rebinding operation. -/
theorem C7_counterexample :
    (fixHybridBare.getter fixGetterOther).name ≠ fixHybridBare.name := by
  decide

/-- C7 amended: rebinding through `setter`, `deleter`, `expression`,
`comparator` and `update_expression` preserves `__name__` (the copy keeps
the original `fget`, from which `update_wrapper` re-derives the same name),
while rebinding through `getter` sets `__name__` to the new getter function
name — so the declared name is preserved exactly when the new getter carries
the same name. -/
theorem C7_name_rebind (h : hybrid_property) (g : PyFunc)
    (s : Inst → PyVal → Inst) (d : Inst → Inst) (e : ClsInfo → PyVal)
    (c : ClsInfo → Comparator) (u : ClsInfo → PyVal → List (PyVal × PyVal)) :
    (h.setter s).name = h.name ∧ (h.deleter d).name = h.name ∧
    (h.expression e).name = h.name ∧ (h.comparator c).name = h.name ∧
    (h.update_expression u).name = h.name ∧ (h.getter g).name = g.name :=
  ⟨rfl, rfl, rfl, rfl, rfl, rfl⟩

/-- C8: at expression-mode access the published name comes from scanning the
owning class MRO, most-derived first, for the first ancestor whose
`__dict__` holds, at the declared name, an entry identity-equal to the
descriptor; when such an ancestor exists the declared name is published, and
for every owning class whose ancestry holds no identity-equal entry the
sentinel unknown-attribute key is assigned. -/
theorem C8_name_resolution (h : hybrid_property) (sid : Nat) (owner : ClsInfo) :
    ((∃ d ∈ owner.mro, lookupDict d h.name = some sid) →
      (h._expr_comparator sid owner).name = h.name) ∧
    ((∀ d ∈ owner.mro, lookupDict d h.name ≠ some sid) →
      (h._expr_comparator sid owner).name = UNKNOWN_ATTR_KEY) := by
  constructor
  · intro hx
    rw [expr_comparator_name]
    exact mro_resolve_name_found h.name sid owner.mro hx
  · intro hx
    rw [expr_comparator_name]
    exact mro_resolve_name_missing h.name sid owner.mro hx

/-- Witness for C8: on `fixOwner`, whose single ancestor declares `value`
with identity 3, the descriptor with identity 3 publishes `value`, while a
descriptor with identity 4 (not identity-equal) gets the sentinel key. -/
theorem C8_name_resolution_witness :
    (fixHybridBare._expr_comparator 3 fixOwner).name = "value" ∧
    (fixHybridBare._expr_comparator 4 fixOwner).name = UNKNOWN_ATTR_KEY :=
  ⟨(C8_name_resolution fixHybridBare 3 fixOwner).1
      ⟨[("value", 3)], List.mem_cons_self _ _, rfl⟩,
   (C8_name_resolution fixHybridBare 4 fixOwner).2
      (by intro d hd; simp [fixOwner] at hd; subst hd; decide)⟩

/-! ## Spec-modelled error taxonomy (sections 4.3 and 7 of the spec) -/

/-- The spec error taxonomy for the adapter and bulk assignment. -/
inductive HybridError where
  | invalidExpressionType : HybridError
  | ambiguousUpdateTarget : HybridError
deriving DecidableEq

/-- Modelled from the spec: which values are genuine expression nodes of the
external library. -/
def PyVal.isNode : PyVal → Bool
  | .col _ => true
  | .app _ _ => true
  | .bindparam _ => true
  | _ => false

/-- Modelled from the spec: which expressions are a single assignable
target for bulk assignment (a real column or mapped attribute). -/
def PyVal.isAssignable : PyVal → Bool
  | .col _ => true
  | .qattr _ => true
  | _ => false

/-- Modelled from the spec (section 4.3): the total expression adapter —
clause-extractable values are extracted and the result is required to be a
genuine node, failing fast with `InvalidExpressionType` otherwise; any other
non-node value is wrapped as a literal bound-parameter node. -/
def adapt_spec : PyVal → Except HybridError PyVal
  | .clauseCapable p => if p.isNode then .ok p else .error .invalidExpressionType
  | v => if v.isNode then .ok v else .ok (.bindparam v)

/-- Modelled from the spec (sections 4.2 and 7): bulk-assignment translation
that raises `AmbiguousUpdateTarget` when no update-clause builder is
attached and the wrapped expression is not itself a single assignable
target. -/
def bulk_update_tuples_spec (qb : String → PyVal → List (PyVal × PyVal))
    (c : ExprComparator) (value : PyVal) :
    Except HybridError (List (PyVal × PyVal)) :=
  match c.expression with
  | .qattr a => .ok (qb a value)
  | e =>
    match c.hybrid.update_expr with
    | some ue => .ok (ue c.cls value)
    | none =>
      if e.isAssignable then .ok [(e, value)]
      else .error .ambiguousUpdateTarget

/-- C9 counterexample: on a hybrid with no update-clause builder whose
wrapped expression is the compound node `endcol - startcol` (not a single
assignable target), the code silently passes the non-assignable expression
through as the update target, where the claim requires a synchronous
`AmbiguousUpdateTarget` failure — the spec-modelled translation errors on
the same input. -/
theorem C9_counterexample :
    ExprComparator._bulk_update_tuples fixQb
      ⟨fixOwner, .app "sub" [.col "endcol", .col "startcol"], fixHybridBare⟩
      (.int 25) =
      [(.app "sub" [.col "endcol", .col "startcol"], .int 25)] ∧
    bulk_update_tuples_spec fixQb
      ⟨fixOwner, .app "sub" [.col "endcol", .col "startcol"], fixHybridBare⟩
      (.int 25) = .error .ambiguousUpdateTarget :=
  ⟨rfl, rfl⟩

/-- C9 amended: bulk assignment on a hybrid with no update-clause builder
whose wrapped expression is not a mapped attribute returns the single pair
`(expression, value)` unchanged — whether or not that expression is
assignable — and no error is raised at this layer; rejecting a
non-assignable target is left to the downstream update compiler. -/
theorem C9_bulk_update_passthrough (qb : String → PyVal → List (PyVal × PyVal))
    (c : ExprComparator) (value : PyVal)
    (hq : c.expression.isQAttr = false) (hu : c.hybrid.update_expr = none) :
    ExprComparator._bulk_update_tuples qb c value = [(c.expression, value)] := by
  unfold ExprComparator._bulk_update_tuples
  cases hc : c.expression <;> simp [PyVal.isQAttr, hc] at hq ⊢ <;> rw [hu]

/-- Witness for the amended C9 at the counterexample input. -/
theorem C9_bulk_update_passthrough_witness :
    ExprComparator._bulk_update_tuples fixQb
      ⟨fixOwner, .app "sub" [.col "endcol", .col "startcol"], fixHybridBare⟩
      (.int 25) =
      [(.app "sub" [.col "endcol", .col "startcol"], .int 25)] :=
  C9_bulk_update_passthrough fixQb
    ⟨fixOwner, .app "sub" [.col "endcol", .col "startcol"], fixHybridBare⟩
    (.int 25) rfl rfl

/-- C10 counterexample: for a clause-extractable value whose extraction
yields the plain int 7 — not an expression node — `__clause_element__`
returns the non-node unchanged instead of failing fast, and for the plain
int 7 itself it returns the value unchanged instead of wrapping it as a
literal node; the spec-modelled total adapter errors, respectively wraps,
on the same inputs. -/
theorem C10_counterexample :
    Comparator.clause_element ⟨.clauseCapable (.int 7)⟩ = .int 7 ∧
    PyVal.isNode (.int 7) = false ∧
    adapt_spec (.clauseCapable (.int 7)) = .error .invalidExpressionType ∧
    Comparator.clause_element ⟨.int 7⟩ = .int 7 ∧
    adapt_spec (.int 7) = .ok (.bindparam (.int 7)) :=
  ⟨rfl, rfl, rfl, rfl, rfl⟩

/-- C10 amended: `__clause_element__` has two cases but performs no runtime
validation — for a value exposing the clause-extraction capability it calls
it and returns the result unchanged, whatever its type (the node assertions
are static-only, under `TYPE_CHECKING`); for every other value it returns
the value itself unchanged, with no literal wrapping at this layer; invalid
results are caught downstream, outside this module. -/
theorem C10_clause_element (p v : PyVal)
    (hv : v.is_has_clause_element = false) :
    Comparator.clause_element ⟨.clauseCapable p⟩ = p ∧
    Comparator.clause_element ⟨v⟩ = v := by
  constructor
  · rfl
  · cases v <;> simp [PyVal.is_has_clause_element] at hv ⊢ <;> rfl

/-- Witness for the amended C10: extraction result passed through raw, and
a plain value returned unchanged. -/
theorem C10_clause_element_witness :
    Comparator.clause_element ⟨.clauseCapable (.int 7)⟩ = .int 7 ∧
    Comparator.clause_element ⟨.int 9⟩ = .int 9 :=
  ⟨(C10_clause_element (.int 7) (.int 9) rfl).1,
   (C10_clause_element (.int 7) (.int 9) rfl).2⟩

end HybridSpec
